import Mathlib

/-!
Shallow embedding of the MoltBot prediction backend (Python) in Lean 4.

Conventions used throughout this development:
* Python floats are modelled as exact rationals (`ℚ`).  The backend only
  adds, subtracts, multiplies and divides confidences and prices, so the
  rational model tracks the intended real-number semantics; the final
  `round(x, 2)` / `round(x, 3)` presentation steps of the Python code are
  omitted (they only affect display precision, not the branch structure).
* A float that may be NaN is modelled as `Option ℚ` with `none` standing
  for NaN; the helpers below reproduce Python/IEEE comparison semantics
  for that case (every ordered comparison against NaN is false).
* A Python function that may raise inside a `try` block whose handler
  returns `None` is modelled with `Option`, `none` being the exception
  path.
-/

/-- Trading signal, the `'BUY' / 'SELL' / 'NEUTRAL'` strings of the backend. -/
inductive Signal where
  | BUY
  | SELL
  | NEUTRAL
deriving DecidableEq, Repr

/-- `signal_map = {'BUY': 1, 'SELL': -1, 'NEUTRAL': 0}` of
`probability_combiner.py` line 75 (`signal_map.get` returns 0 for any
other key, but `Signal` has exactly the three keys). -/
def signalMap : Signal → ℚ
  | .BUY => 1
  | .SELL => -1
  | .NEUTRAL => 0

/-- A (signal, confidence) pair as read out of a layer result dict. -/
structure SigConf where
  signal : Signal
  confidence : ℚ
deriving DecidableEq, Repr

/-- The three stored (already normalized) source weights of
`ProbabilityCombiner` (`probability_combiner.py` lines 29-37). -/
structure ProbabilityCombiner where
  strategyWeight : ℚ
  mlWeight : ℚ
  newsWeight : ℚ
deriving DecidableEq, Repr

/-- `arg or default` for a float argument: Python treats both `None` and
`0.0` as falsy, so a missing or zero weight falls back to the configured
default (`probability_combiner.py` lines 29-31). -/
def effectiveWeight (arg : Option ℚ) (dflt : ℚ) : ℚ :=
  match arg with
  | none => dflt
  | some x => if x = 0 then dflt else x

/-- `ProbabilityCombiner.__init__` (lines 15-37): substitute defaults
(`settings.STRATEGY_WEIGHT = 0.40`, `ML_WEIGHT = 0.35`,
`NEWS_WEIGHT = 0.25`) for falsy arguments, then divide each weight by the
total.  Dividing by a zero total raises `ZeroDivisionError` in Python,
modelled as `none`; no other validation is performed. -/
def ProbabilityCombiner.init (sw mw nw : Option ℚ) : Option ProbabilityCombiner :=
  let s := effectiveWeight sw (2/5)
  let m := effectiveWeight mw (7/20)
  let n := effectiveWeight nw (1/4)
  let total := s + m + n
  if total = 0 then none
  else some ⟨s / total, m / total, n / total⟩

/-- The fields of the dict returned by `ProbabilityCombiner.combine`
(the `breakdown` sub-dict merely echoes the inputs and is omitted). -/
structure CombineResult where
  finalSignal : Signal
  finalConfidence : ℚ
  finalScore : ℚ
deriving DecidableEq, Repr

/-- `ProbabilityCombiner.combine` (`probability_combiner.py` lines
46-152): score each signal, weight by confidence/100 and by the source
weights, threshold at ±0.15, then apply the all-agree +15 boost (cap 100)
followed by the strategy-vs-ml disagreement −20 penalty (floor 0). -/
def ProbabilityCombiner.combine (c : ProbabilityCombiner)
    (strategy ml news : SigConf) : CombineResult :=
  let strategyScore := signalMap strategy.signal
  let mlScore := signalMap ml.signal
  let newsScore := signalMap news.signal
  let finalScore :=
    strategyScore * (strategy.confidence / 100) * c.strategyWeight +
    mlScore * (ml.confidence / 100) * c.mlWeight +
    newsScore * (news.confidence / 100) * c.newsWeight
  let baseConfidence :=
    strategy.confidence * c.strategyWeight +
    ml.confidence * c.mlWeight +
    news.confidence * c.newsWeight
  let finalSignal :=
    if 3/20 < finalScore then Signal.BUY
    else if finalScore < -(3/20) then Signal.SELL
    else Signal.NEUTRAL
  let boosted :=
    if (strategy.signal = .BUY ∧ ml.signal = .BUY ∧ news.signal = .BUY) ∨
       (strategy.signal = .SELL ∧ ml.signal = .SELL ∧ news.signal = .SELL) then
      min 100 (baseConfidence + 15)
    else baseConfidence
  let finalConfidence :=
    if (strategy.signal = .BUY ∧ ml.signal = .SELL) ∨
       (strategy.signal = .SELL ∧ ml.signal = .BUY) then
      max 0 (boosted - 20)
    else boosted
  ⟨finalSignal, finalConfidence, finalScore⟩

/-- The base (pre-adjustment) confidence: weighted average of the three
raw confidences with the stored source weights. -/
def combineBaseConfidence (c : ProbabilityCombiner) (strategy ml news : SigConf) : ℚ :=
  strategy.confidence * c.strategyWeight +
  ml.confidence * c.mlWeight +
  news.confidence * c.newsWeight

/-- All three layers show the same non-NEUTRAL signal. -/
def allAgreeNonNeutral (strategy ml news : SigConf) : Prop :=
  (strategy.signal = .BUY ∧ ml.signal = .BUY ∧ news.signal = .BUY) ∨
  (strategy.signal = .SELL ∧ ml.signal = .SELL ∧ news.signal = .SELL)

/-- Strategy and ML layers show directly opposite signals. -/
def strategyMlOpposite (strategy ml : SigConf) : Prop :=
  (strategy.signal = .BUY ∧ ml.signal = .SELL) ∨
  (strategy.signal = .SELL ∧ ml.signal = .BUY)

/-- The final score exactly as `combine` computes it, for restating the
branch structure of the signal decision. -/
def combineFinalScore (c : ProbabilityCombiner) (strategy ml news : SigConf) : ℚ :=
  signalMap strategy.signal * (strategy.confidence / 100) * c.strategyWeight +
  signalMap ml.signal * (ml.confidence / 100) * c.mlWeight +
  signalMap news.signal * (news.confidence / 100) * c.newsWeight

/-- The effective (pre-normalization) total weight used by
`ProbabilityCombiner.__init__`. -/
def initTotalWeight (sw mw nw : Option ℚ) : ℚ :=
  effectiveWeight sw (2/5) + effectiveWeight mw (7/20) + effectiveWeight nw (1/4)

theorem probabilityCombiner_init_eq (sw mw nw : Option ℚ) :
    ProbabilityCombiner.init sw mw nw =
      if initTotalWeight sw mw nw = 0 then none
      else some ⟨effectiveWeight sw (2/5) / initTotalWeight sw mw nw,
                 effectiveWeight mw (7/20) / initTotalWeight sw mw nw,
                 effectiveWeight nw (1/4) / initTotalWeight sw mw nw⟩ := rfl

theorem allAgree_not_opposite (strategy ml news : SigConf)
    (h : allAgreeNonNeutral strategy ml news) : ¬ strategyMlOpposite strategy ml := by
  intro ho
  rcases h with ⟨h1, h2, _⟩ | ⟨h1, h2, _⟩ <;>
    rcases ho with ⟨o1, o2⟩ | ⟨o1, o2⟩ <;> simp_all

/-- C1: the combiner scores BUY=1 / SELL=-1 / NEUTRAL=0, weights each
score by confidence/100 and by the source weight, thresholds the sum at
±0.15 for the final signal, and (absent the post-adjustments) returns the
weighted average of the three raw confidences; on the concrete instance
strategy=(BUY,65), ml=(BUY,58), news=(NEUTRAL,45) with default weights
0.40/0.35/0.25 the result is BUY at confidence 57.55 exactly (the
weighted average of 65, 58, 45), with no ±15/−20 adjustment. -/
theorem combine_weighted_scoring (c : ProbabilityCombiner) (strategy ml news : SigConf)
    (hw : 0 ≤ c.strategyWeight ∧ 0 ≤ c.mlWeight ∧ 0 ≤ c.newsWeight)
    (hsum : c.strategyWeight + c.mlWeight + c.newsWeight = 1)
    (hconf : strategy.confidence ∈ Set.Icc (0:ℚ) 100 ∧
             ml.confidence ∈ Set.Icc (0:ℚ) 100 ∧
             news.confidence ∈ Set.Icc (0:ℚ) 100) :
    (c.combine strategy ml news).finalScore = combineFinalScore c strategy ml news ∧
    (c.combine strategy ml news).finalSignal =
      (if 3/20 < combineFinalScore c strategy ml news then Signal.BUY
       else if combineFinalScore c strategy ml news < -(3/20) then Signal.SELL
       else Signal.NEUTRAL) ∧
    (¬ allAgreeNonNeutral strategy ml news → ¬ strategyMlOpposite strategy ml →
      (c.combine strategy ml news).finalConfidence = combineBaseConfidence c strategy ml news) ∧
    ProbabilityCombiner.init none none none = some ⟨2/5, 7/20, 1/4⟩ ∧
    ProbabilityCombiner.combine ⟨2/5, 7/20, 1/4⟩ ⟨.BUY, 65⟩ ⟨.BUY, 58⟩ ⟨.NEUTRAL, 45⟩ =
      ⟨.BUY, 1151/20, 463/1000⟩ ∧
    (1151 : ℚ)/20 = 65 * (2/5) + 58 * (7/20) + 45 * (1/4) := by
  refine ⟨rfl, rfl, ?_, ?_, ?_, by norm_num⟩
  · intro h1 h2
    simp only [ProbabilityCombiner.combine, combineBaseConfidence,
      allAgreeNonNeutral, strategyMlOpposite] at h1 h2 ⊢
    rw [if_neg h2, if_neg h1]
  · rw [probabilityCombiner_init_eq]
    norm_num [initTotalWeight, effectiveWeight]
  · simp only [ProbabilityCombiner.combine, signalMap]
    norm_num [CombineResult.mk.injEq]
    all_goals simp

theorem combine_weighted_scoring_witness :
    (ProbabilityCombiner.combine ⟨2/5, 7/20, 1/4⟩ ⟨.BUY, 65⟩ ⟨.BUY, 58⟩ ⟨.NEUTRAL, 45⟩).finalScore
      = combineFinalScore ⟨2/5, 7/20, 1/4⟩ ⟨.BUY, 65⟩ ⟨.BUY, 58⟩ ⟨.NEUTRAL, 45⟩ :=
  (combine_weighted_scoring ⟨2/5, 7/20, 1/4⟩ ⟨.BUY, 65⟩ ⟨.BUY, 58⟩ ⟨.NEUTRAL, 45⟩
    (by norm_num) (by norm_num) (by norm_num [Set.mem_Icc])).1

/-- C2: if strategy, ml and news all show the same non-NEUTRAL signal,
15 is added to the final confidence, capped at 100; if strategy and ml are
directly opposite (news not checked), 20 is subtracted, floored at 0; the
two adjustments can never both fire on one input. -/
theorem combine_adjustments (c : ProbabilityCombiner) (strategy ml news : SigConf) :
    (allAgreeNonNeutral strategy ml news →
      (c.combine strategy ml news).finalConfidence =
        min 100 (combineBaseConfidence c strategy ml news + 15)) ∧
    (strategyMlOpposite strategy ml →
      (c.combine strategy ml news).finalConfidence =
        max 0 (combineBaseConfidence c strategy ml news - 20)) ∧
    ¬ (allAgreeNonNeutral strategy ml news ∧ strategyMlOpposite strategy ml) := by
  refine ⟨?_, ?_, ?_⟩
  · intro h
    have ho := allAgree_not_opposite strategy ml news h
    simp only [ProbabilityCombiner.combine, combineBaseConfidence,
      allAgreeNonNeutral, strategyMlOpposite] at h ho ⊢
    rw [if_neg ho, if_pos h]
  · intro ho
    have h : ¬ allAgreeNonNeutral strategy ml news := fun h =>
      allAgree_not_opposite strategy ml news h ho
    simp only [ProbabilityCombiner.combine, combineBaseConfidence,
      allAgreeNonNeutral, strategyMlOpposite] at h ho ⊢
    rw [if_pos ho, if_neg h]
  · rintro ⟨h, ho⟩
    exact allAgree_not_opposite strategy ml news h ho

theorem combine_adjustments_witness :
    (ProbabilityCombiner.combine ⟨2/5, 7/20, 1/4⟩ ⟨.BUY, 80⟩ ⟨.SELL, 70⟩ ⟨.BUY, 10⟩).finalConfidence
      = max 0 (combineBaseConfidence ⟨2/5, 7/20, 1/4⟩ ⟨.BUY, 80⟩ ⟨.SELL, 70⟩ ⟨.BUY, 10⟩ - 20) :=
  (combine_adjustments ⟨2/5, 7/20, 1/4⟩ ⟨.BUY, 80⟩ ⟨.SELL, 70⟩ ⟨.BUY, 10⟩).2.1
    (Or.inl ⟨rfl, rfl⟩)

theorem effectiveWeight_ne_zero (arg : Option ℚ) (dflt : ℚ) (hd : dflt ≠ 0) :
    effectiveWeight arg dflt ≠ 0 := by
  cases arg with
  | none => exact hd
  | some x =>
    by_cases hx : x = 0 <;> simp [effectiveWeight, hx, hd]

/-- C3 counterexample: the constructor accepts a weight triple containing
negative values (the claim says negative weights are rejected with an
explicit error): weights (1, −0.4, −0.4) are accepted and normalized to
(5, −2, −2). -/
theorem combinerInit_accepts_negative :
    ProbabilityCombiner.init (some 1) (some (-(2/5))) (some (-(2/5))) = some ⟨5, -2, -2⟩ := by
  rw [probabilityCombiner_init_eq]
  norm_num [initTotalWeight, effectiveWeight]

/-- C3 amended: the constructor performs no validation.  Construction
fails (with a `ZeroDivisionError`, not an explicit configuration error)
exactly when the effective weights sum to zero, and every accepted triple
— negative weights included — yields stored weights summing to 1. -/
theorem combinerInit_zero_total_and_sum_one (sw mw nw : Option ℚ) :
    (ProbabilityCombiner.init sw mw nw = none ↔ initTotalWeight sw mw nw = 0) ∧
    (∀ c, ProbabilityCombiner.init sw mw nw = some c →
      c.strategyWeight + c.mlWeight + c.newsWeight = 1) := by
  rw [probabilityCombiner_init_eq]
  by_cases h : initTotalWeight sw mw nw = 0
  · rw [if_pos h]
    exact ⟨by simp [h], fun c hc => by cases hc⟩
  · rw [if_neg h]
    refine ⟨by simp [h], fun c hc => ?_⟩
    cases hc
    simp only
    rw [div_add_div_same, div_add_div_same,
      show effectiveWeight sw (2/5) + effectiveWeight mw (7/20) + effectiveWeight nw (1/4)
        = initTotalWeight sw mw nw from rfl, div_self h]

theorem combinerInit_zero_total_and_sum_one_witness :
    (5 : ℚ) + (-2) + (-2) = 1 :=
  (combinerInit_zero_total_and_sum_one (some 1) (some (-(2/5))) (some (-(2/5)))).2
    ⟨5, -2, -2⟩
    (by rw [probabilityCombiner_init_eq]; norm_num [initTotalWeight, effectiveWeight])

/-- C10: a weight argument passed as 0 (or omitted, i.e. `None`) is falsy
in Python, so `arg or default` silently substitutes the configured default
(0.40 / 0.35 / 0.25); consequently no accepted construction can store a
zero weight for any source. -/
theorem combinerInit_zero_becomes_default (sw mw nw : Option ℚ) :
    ((sw = none ∨ sw = some 0) → effectiveWeight sw (2/5) = 2/5) ∧
    ((mw = none ∨ mw = some 0) → effectiveWeight mw (7/20) = 7/20) ∧
    ((nw = none ∨ nw = some 0) → effectiveWeight nw (1/4) = 1/4) ∧
    (∀ c, ProbabilityCombiner.init sw mw nw = some c →
      c.strategyWeight ≠ 0 ∧ c.mlWeight ≠ 0 ∧ c.newsWeight ≠ 0) := by
  refine ⟨?_, ?_, ?_, ?_⟩
  · rintro (rfl | rfl) <;> simp [effectiveWeight]
  · rintro (rfl | rfl) <;> simp [effectiveWeight]
  · rintro (rfl | rfl) <;> simp [effectiveWeight]
  · intro c hc
    rw [probabilityCombiner_init_eq] at hc
    by_cases h : initTotalWeight sw mw nw = 0
    · rw [if_pos h] at hc; cases hc
    · rw [if_neg h] at hc
      cases hc
      refine ⟨div_ne_zero ?_ h, div_ne_zero ?_ h, div_ne_zero ?_ h⟩ <;>
        exact effectiveWeight_ne_zero _ _ (by norm_num)

theorem combinerInit_zero_becomes_default_witness :
    effectiveWeight (some 0) (2/5) = 2/5 :=
  (combinerInit_zero_becomes_default (some 0) none (some (1/4))).1 (Or.inr rfl)

/-- A single strategy result as consumed by
`StrategyManager._combine_strategies` (only `signal` and `confidence` are
read). -/
structure StrategyResult where
  signal : Signal
  confidence : ℚ
deriving DecidableEq, Repr

/-- The fields of the dict returned by
`StrategyManager._combine_strategies` (the echoed `strategies` list is
omitted). -/
structure StrategyCombined where
  signal : Signal
  avgConfidence : ℚ
  buyCount : ℕ
  sellCount : ℕ
  neutralCount : ℕ
deriving DecidableEq, Repr

/-- `StrategyManager._combine_strategies` (`strategy_manager.py` lines
79-133): empty list short-circuits to NEUTRAL/0; otherwise count the three
signal categories, average all confidences, and pick BUY (resp. SELL) only
when its count strictly exceeds both other counts, adding a
`(count/n)*20` boost capped at 100, else fall through to NEUTRAL with a
`(1 - max_count/n)*30` penalty floored at 0. -/
def StrategyManager.combineStrategies (results : List StrategyResult) : StrategyCombined :=
  match results with
  | [] => ⟨.NEUTRAL, 0, 0, 0, 0⟩
  | _ =>
    let buyCount := results.countP (fun r => decide (r.signal = .BUY))
    let sellCount := results.countP (fun r => decide (r.signal = .SELL))
    let neutralCount := results.countP (fun r => decide (r.signal = .NEUTRAL))
    let n : ℚ := results.length
    let avgConfidence := (results.map (fun r => r.confidence)).sum / n
    if sellCount < buyCount ∧ neutralCount < buyCount then
      ⟨.BUY, min 100 (avgConfidence + ((buyCount : ℚ) / n) * 20),
        buyCount, sellCount, neutralCount⟩
    else if buyCount < sellCount ∧ neutralCount < sellCount then
      ⟨.SELL, min 100 (avgConfidence + ((sellCount : ℚ) / n) * 20),
        buyCount, sellCount, neutralCount⟩
    else
      let maxCount := max buyCount (max sellCount neutralCount)
      ⟨.NEUTRAL, max 0 (avgConfidence - (1 - (maxCount : ℚ) / n) * 30),
        buyCount, sellCount, neutralCount⟩

/-- Number of BUY votes in a strategy result list. -/
def buyVotes (results : List StrategyResult) : ℕ :=
  results.countP (fun r => decide (r.signal = .BUY))

/-- Number of SELL votes in a strategy result list. -/
def sellVotes (results : List StrategyResult) : ℕ :=
  results.countP (fun r => decide (r.signal = .SELL))

/-- Number of NEUTRAL votes in a strategy result list. -/
def neutralVotes (results : List StrategyResult) : ℕ :=
  results.countP (fun r => decide (r.signal = .NEUTRAL))

/-- Plain average of the confidences in a strategy result list. -/
def avgStrategyConfidence (results : List StrategyResult) : ℚ :=
  (results.map (fun r => r.confidence)).sum / (results.length : ℚ)

/-- C4: on a six-result list the aggregator picks the strictly largest
category (BUY or SELL) with a `(count/6)*20` boost capped at 100; any tie
for the maximum falls through to the NEUTRAL branch, which subtracts
`(1 - max_count/6)*30` floored at 0; the base confidence is always the
plain average of the six confidences. -/
theorem combineStrategies_majority (results : List StrategyResult)
    (hlen : results.length = 6)
    (hconf : ∀ r ∈ results, 0 ≤ r.confidence ∧ r.confidence ≤ 100) :
    (sellVotes results < buyVotes results ∧ neutralVotes results < buyVotes results →
      StrategyManager.combineStrategies results =
        ⟨.BUY, min 100 (avgStrategyConfidence results + ((buyVotes results : ℚ) / 6) * 20),
          buyVotes results, sellVotes results, neutralVotes results⟩) ∧
    (buyVotes results < sellVotes results ∧ neutralVotes results < sellVotes results →
      StrategyManager.combineStrategies results =
        ⟨.SELL, min 100 (avgStrategyConfidence results + ((sellVotes results : ℚ) / 6) * 20),
          buyVotes results, sellVotes results, neutralVotes results⟩) ∧
    (¬ (sellVotes results < buyVotes results ∧ neutralVotes results < buyVotes results) →
     ¬ (buyVotes results < sellVotes results ∧ neutralVotes results < sellVotes results) →
      StrategyManager.combineStrategies results =
        ⟨.NEUTRAL,
          max 0 (avgStrategyConfidence results -
            (1 - ((max (buyVotes results) (max (sellVotes results) (neutralVotes results)) : ℚ) / 6)) * 30),
          buyVotes results, sellVotes results, neutralVotes results⟩) := by
  have hne : results ≠ [] := by
    intro h
    rw [h] at hlen
    simp at hlen
  cases results with
  | nil => exact absurd rfl hne
  | cons a t =>
    have hn : ((a :: t).length : ℚ) = 6 := by rw [hlen]; norm_num
    refine ⟨?_, ?_, ?_⟩
    · intro h
      simp only [buyVotes, sellVotes, neutralVotes] at h
      simp only [StrategyManager.combineStrategies, buyVotes, sellVotes, neutralVotes,
        avgStrategyConfidence]
      rw [if_pos h, hn]
    · intro h
      simp only [buyVotes, sellVotes, neutralVotes] at h
      have hnot : ¬ ((a :: t).countP (fun r => decide (r.signal = .SELL)) <
            (a :: t).countP (fun r => decide (r.signal = .BUY)) ∧
          (a :: t).countP (fun r => decide (r.signal = .NEUTRAL)) <
            (a :: t).countP (fun r => decide (r.signal = .BUY))) := by
        rintro ⟨h1, _⟩
        exact absurd h.1 (Nat.lt_asymm h1)
      simp only [StrategyManager.combineStrategies, buyVotes, sellVotes, neutralVotes,
        avgStrategyConfidence]
      rw [if_neg hnot, if_pos h, hn]
    · intro h1 h2
      simp only [buyVotes, sellVotes, neutralVotes] at h1 h2
      simp only [StrategyManager.combineStrategies, buyVotes, sellVotes, neutralVotes,
        avgStrategyConfidence]
      rw [if_neg h1, if_neg h2, hn]
      simp [Nat.cast_max]

theorem combineStrategies_majority_witness :
    StrategyManager.combineStrategies
        [⟨.BUY, 60⟩, ⟨.BUY, 60⟩, ⟨.BUY, 60⟩, ⟨.BUY, 60⟩, ⟨.SELL, 50⟩, ⟨.NEUTRAL, 40⟩] =
      ⟨.BUY,
        min 100 (avgStrategyConfidence
            [⟨.BUY, 60⟩, ⟨.BUY, 60⟩, ⟨.BUY, 60⟩, ⟨.BUY, 60⟩, ⟨.SELL, 50⟩, ⟨.NEUTRAL, 40⟩] +
          ((buyVotes [⟨.BUY, 60⟩, ⟨.BUY, 60⟩, ⟨.BUY, 60⟩, ⟨.BUY, 60⟩, ⟨.SELL, 50⟩, ⟨.NEUTRAL, 40⟩] : ℚ) / 6) * 20),
        buyVotes [⟨.BUY, 60⟩, ⟨.BUY, 60⟩, ⟨.BUY, 60⟩, ⟨.BUY, 60⟩, ⟨.SELL, 50⟩, ⟨.NEUTRAL, 40⟩],
        sellVotes [⟨.BUY, 60⟩, ⟨.BUY, 60⟩, ⟨.BUY, 60⟩, ⟨.BUY, 60⟩, ⟨.SELL, 50⟩, ⟨.NEUTRAL, 40⟩],
        neutralVotes [⟨.BUY, 60⟩, ⟨.BUY, 60⟩, ⟨.BUY, 60⟩, ⟨.BUY, 60⟩, ⟨.SELL, 50⟩, ⟨.NEUTRAL, 40⟩]⟩ :=
  (combineStrategies_majority
      [⟨.BUY, 60⟩, ⟨.BUY, 60⟩, ⟨.BUY, 60⟩, ⟨.BUY, 60⟩, ⟨.SELL, 50⟩, ⟨.NEUTRAL, 40⟩]
      rfl
      (by intro r hr; fin_cases hr <;> norm_num)).1
    (by decide)

/-- A single classifier vote as consumed by
`MLModelPredictor._combine_predictions`. -/
structure MLPrediction where
  signal : Signal
  confidence : ℚ
deriving DecidableEq, Repr

/-- The fields of the dict returned by
`MLModelPredictor._combine_predictions` (the echoed `models` list is
omitted). -/
structure MLCombined where
  signal : Signal
  avgConfidence : ℚ
  buyCount : ℕ
  sellCount : ℕ
deriving DecidableEq, Repr

/-- `MLModelPredictor._combine_predictions` (`model_predictor.py` lines
208-257): empty vote list short-circuits to NEUTRAL/0; otherwise BUY
(resp. SELL) wins on a strictly larger count with a `(count/n)*15` boost
capped at 100; on a tie the NEUTRAL branch computes
`max(20, avg_confidence - 20)` — a floor of 20, not 0. -/
def MLModelPredictor.combinePredictions (predictions : List MLPrediction) : MLCombined :=
  match predictions with
  | [] => ⟨.NEUTRAL, 0, 0, 0⟩
  | _ =>
    let buyCount := predictions.countP (fun p => decide (p.signal = .BUY))
    let sellCount := predictions.countP (fun p => decide (p.signal = .SELL))
    let n : ℚ := predictions.length
    let avgConfidence := (predictions.map (fun p => p.confidence)).sum / n
    if sellCount < buyCount then
      ⟨.BUY, min 100 (avgConfidence + ((buyCount : ℚ) / n) * 15), buyCount, sellCount⟩
    else if buyCount < sellCount then
      ⟨.SELL, min 100 (avgConfidence + ((sellCount : ℚ) / n) * 15), buyCount, sellCount⟩
    else
      ⟨.NEUTRAL, max 20 (avgConfidence - 20), buyCount, sellCount⟩

/-- Number of BUY votes in a classifier vote list. -/
def mlBuyVotes (predictions : List MLPrediction) : ℕ :=
  predictions.countP (fun p => decide (p.signal = .BUY))

/-- Number of SELL votes in a classifier vote list. -/
def mlSellVotes (predictions : List MLPrediction) : ℕ :=
  predictions.countP (fun p => decide (p.signal = .SELL))

/-- Plain average of the confidences in a classifier vote list. -/
def avgMlConfidence (predictions : List MLPrediction) : ℚ :=
  (predictions.map (fun p => p.confidence)).sum / (predictions.length : ℚ)

/-- C5 counterexample: on the tied vote list [(BUY,10), (SELL,10)] the
NEUTRAL branch yields confidence `max(20, 10 - 20) = 20`, while the claim
(average confidence minus 20, floored at 0) demands
`max(0, 10 - 20) = 0`. -/
theorem combinePredictions_tie_floor_is_twenty :
    (MLModelPredictor.combinePredictions [⟨.BUY, 10⟩, ⟨.SELL, 10⟩]).avgConfidence = 20 ∧
    max (0:ℚ) ((10 + 10) / 2 - 20) = 0 ∧ (20:ℚ) ≠ 0 := by
  refine ⟨?_, by norm_num, by norm_num⟩
  simp [MLModelPredictor.combinePredictions, List.countP_cons, List.countP_nil, max_def]
  norm_num

/-- C5 amended: empty vote list yields NEUTRAL/0; a strict BUY (resp.
SELL) majority yields average confidence plus `(count/n)*15` capped at
100; a tie yields NEUTRAL with the fixed 20-point penalty floored at 20
(not 0): `max(20, avg - 20)`. -/
theorem combinePredictions_rules (predictions : List MLPrediction) :
    (MLModelPredictor.combinePredictions [] = ⟨.NEUTRAL, 0, 0, 0⟩) ∧
    (predictions ≠ [] → mlSellVotes predictions < mlBuyVotes predictions →
      MLModelPredictor.combinePredictions predictions =
        ⟨.BUY, min 100 (avgMlConfidence predictions +
            ((mlBuyVotes predictions : ℚ) / (predictions.length : ℚ)) * 15),
          mlBuyVotes predictions, mlSellVotes predictions⟩) ∧
    (predictions ≠ [] → mlBuyVotes predictions < mlSellVotes predictions →
      MLModelPredictor.combinePredictions predictions =
        ⟨.SELL, min 100 (avgMlConfidence predictions +
            ((mlSellVotes predictions : ℚ) / (predictions.length : ℚ)) * 15),
          mlBuyVotes predictions, mlSellVotes predictions⟩) ∧
    (predictions ≠ [] → mlBuyVotes predictions = mlSellVotes predictions →
      MLModelPredictor.combinePredictions predictions =
        ⟨.NEUTRAL, max 20 (avgMlConfidence predictions - 20),
          mlBuyVotes predictions, mlSellVotes predictions⟩) := by
  refine ⟨rfl, ?_, ?_, ?_⟩
  · intro hne h
    cases predictions with
    | nil => exact absurd rfl hne
    | cons a t =>
      simp only [mlBuyVotes, mlSellVotes] at h
      simp only [MLModelPredictor.combinePredictions, mlBuyVotes, mlSellVotes,
        avgMlConfidence]
      rw [if_pos h]
  · intro hne h
    cases predictions with
    | nil => exact absurd rfl hne
    | cons a t =>
      simp only [mlBuyVotes, mlSellVotes] at h
      simp only [MLModelPredictor.combinePredictions, mlBuyVotes, mlSellVotes,
        avgMlConfidence]
      rw [if_neg (Nat.lt_asymm h), if_pos h]
  · intro hne h
    cases predictions with
    | nil => exact absurd rfl hne
    | cons a t =>
      simp only [mlBuyVotes, mlSellVotes] at h
      simp only [MLModelPredictor.combinePredictions, mlBuyVotes, mlSellVotes,
        avgMlConfidence]
      rw [if_neg (by rw [h]; exact Nat.lt_irrefl _), if_neg (by rw [h]; exact Nat.lt_irrefl _)]

theorem combinePredictions_rules_witness :
    MLModelPredictor.combinePredictions [⟨.BUY, 60⟩, ⟨.BUY, 80⟩, ⟨.SELL, 50⟩] =
      ⟨.BUY, min 100 (avgMlConfidence [⟨.BUY, 60⟩, ⟨.BUY, 80⟩, ⟨.SELL, 50⟩] +
          ((mlBuyVotes [⟨.BUY, 60⟩, ⟨.BUY, 80⟩, ⟨.SELL, 50⟩] : ℚ) /
            (([⟨.BUY, 60⟩, ⟨.BUY, 80⟩, ⟨.SELL, 50⟩] : List MLPrediction).length : ℚ)) * 15),
        mlBuyVotes [⟨.BUY, 60⟩, ⟨.BUY, 80⟩, ⟨.SELL, 50⟩],
        mlSellVotes [⟨.BUY, 60⟩, ⟨.BUY, 80⟩, ⟨.SELL, 50⟩]⟩ :=
  (combinePredictions_rules [⟨.BUY, 60⟩, ⟨.BUY, 80⟩, ⟨.SELL, 50⟩]).2.1
    (by decide) (by decide)

/-- An OHLC candle (only `high`, `low`, `close` are read by the target
price calculator). -/
structure Candle where
  high : ℚ
  low : ℚ
  close : ℚ
deriving DecidableEq, Repr

/-- `target_type` of the target price result. -/
inductive TargetType where
  | HIGH
  | LOW
deriving DecidableEq, Repr

/-- The fields of the dict returned by
`TargetPriceCalculator.calculate_target` (the echoed `atr`,
`confidence_factor`, `price_movement` and `pct_move` fields are
derivable from the others and omitted; the reason strings drop the
interpolated threshold value). -/
structure TargetResult where
  targetPrice : Option ℚ
  targetType : Option TargetType
  currentPrice : ℚ
  reason : Option String
deriving DecidableEq, Repr

/-- True ranges of the candles after the first, as computed by the `ta`
library backing the local `pandas_ta` shim: for each candle,
`max(high - low, |high - prev_close|, |low - prev_close|)`. -/
def trueRangesFrom (prev : Candle) : List Candle → List ℚ
  | [] => []
  | c :: rest =>
      max (c.high - c.low) (max |c.high - prev.close| |c.low - prev.close|) ::
        trueRangesFrom c rest

/-- Full true-range series: the first candle has no previous close
(`close.shift(1)` is NaN there and `DataFrame.max` skips NaN), so its
true range is just `high - low`. -/
def trueRanges : List Candle → List ℚ
  | [] => []
  | c :: rest => (c.high - c.low) :: trueRangesFrom c rest

/-- Last value of `ta.volatility.average_true_range(high, low, close,
window)` (the `ta` library behind the local `pandas_ta` shim,
`pandas_ta.py` lines 39-40): the ATR array is seeded at index
`window - 1` with the mean of the first `window` true ranges and then
smoothed by `atr[i] = (atr[i-1]*(window-1) + tr[i]) / window`.  When the
series is shorter than `window` the seeding assignment raises an
`IndexError`, modelled as `none`. -/
def atrLast (df : List Candle) (window : ℕ) : Option ℚ :=
  if df.length < window then none
  else
    let tr := trueRanges df
    some ((tr.drop window).foldl
      (fun acc t => (acc * ((window : ℚ) - 1) + t) / (window : ℚ))
      ((tr.take window).sum / (window : ℚ)))

/-- `TargetPriceCalculator.calculate_target`
(`target_price_calculator.py` lines 26-110): the whole body runs in a
`try` whose handler returns `None`; an empty window raises on
`iloc[-1]`; a too-low confidence or NEUTRAL signal short-circuits to a
null target with a reason; otherwise the target is the current price
plus (BUY) or minus (SELL) `atr * (0.5 + (confidence/100) * 1.5)`. -/
def TargetPriceCalculator.calculateTarget (df : List Candle) (signal : Signal)
    (confidence : ℚ) (minConfidence : ℚ) (atrPeriod : ℕ) : Option TargetResult :=
  match df.getLast? with
  | none => none
  | some lastCandle =>
    if confidence < minConfidence then
      some ⟨none, none, lastCandle.close, some "Confidence below threshold"⟩
    else if signal = .NEUTRAL then
      some ⟨none, none, lastCandle.close, some "Signal is NEUTRAL"⟩
    else
      match atrLast df atrPeriod with
      | none => none
      | some currentAtr =>
        let confidenceFactor := 1/2 + (confidence / 100) * (3/2)
        let priceMovement := currentAtr * confidenceFactor
        if signal = .BUY then
          some ⟨some (lastCandle.close + priceMovement), some .HIGH, lastCandle.close, none⟩
        else
          some ⟨some (lastCandle.close - priceMovement), some .LOW, lastCandle.close, none⟩

/-- A fifteen-candle window with every candle completely flat at 100. -/
def flatWindow15 : List Candle :=
  [⟨100, 100, 100⟩, ⟨100, 100, 100⟩, ⟨100, 100, 100⟩, ⟨100, 100, 100⟩, ⟨100, 100, 100⟩,
   ⟨100, 100, 100⟩, ⟨100, 100, 100⟩, ⟨100, 100, 100⟩, ⟨100, 100, 100⟩, ⟨100, 100, 100⟩,
   ⟨100, 100, 100⟩, ⟨100, 100, 100⟩, ⟨100, 100, 100⟩, ⟨100, 100, 100⟩, ⟨100, 100, 100⟩]

/-- C6 counterexample: on a completely flat fifteen-candle window the ATR
is 0, so a BUY at confidence 70 (above the threshold 60) produces a HIGH
target exactly equal to the current price — the claimed strict
`target > currentPrice` fails. -/
theorem calculateTarget_flat_window_no_strict_gain :
    TargetPriceCalculator.calculateTarget flatWindow15 .BUY 70 60 14 =
      some ⟨some 100, some .HIGH, 100, none⟩ ∧ ¬ ((100 : ℚ) < 100) := by
  constructor
  · simp [TargetPriceCalculator.calculateTarget, flatWindow15, atrLast,
      trueRanges, trueRangesFrom, List.getLast?]
    norm_num
  · norm_num

/-- C6 amended: confidence below threshold or a NEUTRAL signal
short-circuits to a null target price with a reason and no target
computation; otherwise, with `confidenceFactor = 0.5 + (confidence/100)*1.5`
and `movement = atr * confidenceFactor`, a BUY yields
`target = currentPrice + movement` with type HIGH and a SELL yields
`target = currentPrice - movement` with type LOW; the strict inequalities
`target > currentPrice` (BUY) and `target < currentPrice` (SELL) hold
whenever the window's ATR is positive (a flat window has ATR 0 and the
target equals the current price). -/
theorem calculateTarget_rules (df : List Candle) (signal : Signal)
    (confidence minConfidence : ℚ) (atrPeriod : ℕ) (lastCandle : Candle)
    (hconf : 0 ≤ confidence)
    (hlast : df.getLast? = some lastCandle) :
    (confidence < minConfidence →
      TargetPriceCalculator.calculateTarget df signal confidence minConfidence atrPeriod =
        some ⟨none, none, lastCandle.close, some "Confidence below threshold"⟩) ∧
    (¬ confidence < minConfidence → signal = .NEUTRAL →
      TargetPriceCalculator.calculateTarget df signal confidence minConfidence atrPeriod =
        some ⟨none, none, lastCandle.close, some "Signal is NEUTRAL"⟩) ∧
    (∀ a, ¬ confidence < minConfidence → signal = .BUY →
      atrLast df atrPeriod = some a →
      TargetPriceCalculator.calculateTarget df signal confidence minConfidence atrPeriod =
        some ⟨some (lastCandle.close + a * (1/2 + (confidence / 100) * (3/2))), some .HIGH,
          lastCandle.close, none⟩ ∧
      (0 < a → lastCandle.close < lastCandle.close + a * (1/2 + (confidence / 100) * (3/2)))) ∧
    (∀ a, ¬ confidence < minConfidence → signal = .SELL →
      atrLast df atrPeriod = some a →
      TargetPriceCalculator.calculateTarget df signal confidence minConfidence atrPeriod =
        some ⟨some (lastCandle.close - a * (1/2 + (confidence / 100) * (3/2))), some .LOW,
          lastCandle.close, none⟩ ∧
      (0 < a → lastCandle.close - a * (1/2 + (confidence / 100) * (3/2)) < lastCandle.close)) := by
  have hfac : (0:ℚ) < 1/2 + (confidence / 100) * (3/2) := by nlinarith
  refine ⟨?_, ?_, ?_, ?_⟩
  · intro h
    simp only [TargetPriceCalculator.calculateTarget, hlast]
    rw [if_pos h]
  · intro h1 h2
    subst h2
    simp only [TargetPriceCalculator.calculateTarget, hlast]
    rw [if_neg h1]
    simp
  · intro a h1 h2 ha
    subst h2
    simp only [TargetPriceCalculator.calculateTarget, hlast, ha]
    refine ⟨?_, ?_⟩
    · rw [if_neg h1]
      simp
    · intro hpos
      have := mul_pos hpos hfac
      linarith
  · intro a h1 h2 ha
    subst h2
    simp only [TargetPriceCalculator.calculateTarget, hlast, ha]
    refine ⟨?_, ?_⟩
    · rw [if_neg h1]
      simp
    · intro hpos
      have := mul_pos hpos hfac
      linarith

theorem calculateTarget_rules_witness :
    TargetPriceCalculator.calculateTarget [⟨100, 100, 100⟩] .BUY 50 60 14 =
      some ⟨none, none, 100, some "Confidence below threshold"⟩ :=
  (calculateTarget_rules [⟨100, 100, 100⟩] .BUY 50 60 14 ⟨100, 100, 100⟩
    (by norm_num) rfl).1 (by norm_num)

/-- A sentiment (score, confidence) pair: used both for raw inputs
(fear/greed index reading, individual news items) and for the weighted
entries of the `sentiments` list. -/
structure SentimentSource where
  score : ℚ
  confidence : ℚ
deriving DecidableEq, Repr

/-- The fields of the dict returned by
`NewsSentimentFetcher.get_aggregated_sentiment` (`coin` and `timestamp`
are omitted). -/
structure SentimentResult where
  sentimentScore : ℚ
  confidence : ℚ
  signal : Signal
  numSources : ℕ
deriving DecidableEq, Repr

/-- Fear/greed contribution to the `sentiments` list
(`news_sentiment_fetcher.py` lines 210-216): when present, one entry with
the raw score and the confidence weighted by 0.3. -/
def fearGreedEntries (fearGreed : Option SentimentSource) : List SentimentSource :=
  match fearGreed with
  | none => []
  | some fg => [⟨fg.score, fg.confidence * (3/10)⟩]

/-- CryptoPanic news contribution to the `sentiments` list (lines
218-231): when the fetched list is non-empty and contains at least one
item with a nonzero sentiment score, one entry whose score averages the
nonzero scores, with the average confidence over ALL items weighted by
0.7. -/
def newsEntries (news : List SentimentSource) : List SentimentSource :=
  match news with
  | [] => []
  | _ =>
    let newsScores := (news.map (fun x => x.score)).filter (fun q => decide (q ≠ 0))
    match newsScores with
    | [] => []
    | _ => [⟨newsScores.sum / (newsScores.length : ℚ),
             ((news.map (fun x => x.confidence)).sum / (news.length : ℚ)) * (7/10)⟩]

/-- The full `sentiments` list: fear/greed entry (if any) followed by the
news entry (if any). -/
def buildSentiments (fearGreed : Option SentimentSource)
    (news : List SentimentSource) : List SentimentSource :=
  fearGreedEntries fearGreed ++ newsEntries news

/-- `NewsSentimentFetcher.get_aggregated_sentiment` aggregation step
(`news_sentiment_fetcher.py` lines 233-281): weighted score
`Σ score·confidence / Σ confidence` over the entries, confidence
`Σ confidence / numEntries`, signal thresholded at ±0.2; an empty entry
list or a non-positive total weight degrades to NEUTRAL at confidence 0. -/
def NewsSentimentFetcher.getAggregatedSentiment (fearGreed : Option SentimentSource)
    (news : List SentimentSource) : SentimentResult :=
  let sentiments := buildSentiments fearGreed news
  match sentiments with
  | [] => ⟨0, 0, .NEUTRAL, 0⟩
  | _ =>
    let totalWeight := (sentiments.map (fun e => e.confidence)).sum
    if 0 < totalWeight then
      let weightedScore := (sentiments.map (fun e => e.score * e.confidence)).sum / totalWeight
      let avgConfidence := (sentiments.map (fun e => e.confidence)).sum /
        (sentiments.length : ℚ)
      ⟨weightedScore, avgConfidence,
        if 1/5 < weightedScore then .BUY
        else if weightedScore < -(1/5) then .SELL
        else .NEUTRAL,
        sentiments.length⟩
    else ⟨0, 0, .NEUTRAL, 0⟩

theorem getAggregatedSentiment_pos (fearGreed : Option SentimentSource)
    (news : List SentimentSource)
    (hne : buildSentiments fearGreed news ≠ [])
    (hw : 0 < ((buildSentiments fearGreed news).map (fun e => e.confidence)).sum) :
    NewsSentimentFetcher.getAggregatedSentiment fearGreed news =
      ⟨((buildSentiments fearGreed news).map (fun e => e.score * e.confidence)).sum /
          ((buildSentiments fearGreed news).map (fun e => e.confidence)).sum,
        ((buildSentiments fearGreed news).map (fun e => e.confidence)).sum /
          ((buildSentiments fearGreed news).length : ℚ),
        (if 1/5 < ((buildSentiments fearGreed news).map (fun e => e.score * e.confidence)).sum /
              ((buildSentiments fearGreed news).map (fun e => e.confidence)).sum then Signal.BUY
         else if ((buildSentiments fearGreed news).map (fun e => e.score * e.confidence)).sum /
              ((buildSentiments fearGreed news).map (fun e => e.confidence)).sum < -(1/5) then
           Signal.SELL
         else Signal.NEUTRAL),
        (buildSentiments fearGreed news).length⟩ := by
  obtain ⟨e, es, hcons⟩ := List.exists_cons_of_ne_nil hne
  rw [hcons] at hw ⊢
  simp only [NewsSentimentFetcher.getAggregatedSentiment, hcons]
  rw [if_pos hw]

/-- C8 counterexample: with only the fear/greed source present (score
0.5, raw confidence 50), the aggregated confidence is 15 — the average of
the weighted confidences (50·0.3) — not 50, the average of the raw
per-source confidences the claim describes. -/
theorem aggregatedSentiment_counterexample :
    (NewsSentimentFetcher.getAggregatedSentiment (some ⟨1/2, 50⟩) []).confidence = 15 ∧
    (15 : ℚ) ≠ 50 := by
  constructor
  · simp [NewsSentimentFetcher.getAggregatedSentiment, buildSentiments,
      fearGreedEntries, newsEntries]
    norm_num
  · norm_num

/-- C8 amended: the aggregated score is `Σ(score·confidence·sourceWeight)
/ Σ(confidence·sourceWeight)` over the present sources (fear/greed weight
0.3, averaged news weight 0.7), the signal is thresholded at ±0.2, an
absent source contributes neither score nor weight, no sources at all
degrades to NEUTRAL at confidence 0 — but the aggregated confidence is
the average of the WEIGHTED per-source confidences
(confidence·sourceWeight), not of the raw confidences. -/
theorem aggregatedSentiment_formulas (fearGreed : Option SentimentSource)
    (news : List SentimentSource)
    (hne : buildSentiments fearGreed news ≠ [])
    (hw : 0 < ((buildSentiments fearGreed news).map (fun e => e.confidence)).sum) :
    (NewsSentimentFetcher.getAggregatedSentiment none [] = ⟨0, 0, .NEUTRAL, 0⟩) ∧
    (fearGreedEntries none = [] ∧ newsEntries [] = []) ∧
    (∀ fg, fearGreedEntries (some fg) = [⟨fg.score, fg.confidence * (3/10)⟩]) ∧
    ((NewsSentimentFetcher.getAggregatedSentiment fearGreed news).sentimentScore =
      ((buildSentiments fearGreed news).map (fun e => e.score * e.confidence)).sum /
        ((buildSentiments fearGreed news).map (fun e => e.confidence)).sum) ∧
    ((NewsSentimentFetcher.getAggregatedSentiment fearGreed news).confidence =
      ((buildSentiments fearGreed news).map (fun e => e.confidence)).sum /
        ((buildSentiments fearGreed news).length : ℚ)) ∧
    ((NewsSentimentFetcher.getAggregatedSentiment fearGreed news).signal =
      (if 1/5 < (NewsSentimentFetcher.getAggregatedSentiment fearGreed news).sentimentScore then
        Signal.BUY
       else if (NewsSentimentFetcher.getAggregatedSentiment fearGreed news).sentimentScore <
          -(1/5) then Signal.SELL
       else Signal.NEUTRAL)) := by
  have heq := getAggregatedSentiment_pos fearGreed news hne hw
  refine ⟨rfl, ⟨rfl, rfl⟩, fun fg => rfl, ?_, ?_, ?_⟩ <;> rw [heq]

theorem aggregatedSentiment_formulas_witness :
    (NewsSentimentFetcher.getAggregatedSentiment (some ⟨1/2, 50⟩) []).sentimentScore =
      ((buildSentiments (some ⟨1/2, 50⟩) []).map (fun e => e.score * e.confidence)).sum /
        ((buildSentiments (some ⟨1/2, 50⟩) []).map (fun e => e.confidence)).sum :=
  (aggregatedSentiment_formulas (some ⟨1/2, 50⟩) []
    (by simp [buildSentiments, fearGreedEntries, newsEntries])
    (by simp [buildSentiments, fearGreedEntries, newsEntries])).2.2.2.1

/-- An IEEE double as Python sees it: finite, NaN, or a signed infinity.
Finite values are exact rationals per the file-wide convention. -/
inductive PyFloat where
  | fin (q : ℚ)
  | nan
  | inf
  | ninf
deriving DecidableEq, Repr

/-- `math.isnan(x) or math.isinf(x)`. -/
def PyFloat.isNanOrInf : PyFloat → Bool
  | .fin _ => false
  | _ => true

/-- A Python value inside a prediction structure, as traversed by
`PredictionEngine._clean_for_serialization` (`prediction_engine.py`
lines 164-190): dicts, lists (covering lists, tuples and numpy arrays),
plain scalars, and numpy float64 scalars (which carry an `.item()`
method). -/
inductive PyVal where
  | pynone
  | pybool (b : Bool)
  | pyint (n : ℤ)
  | pyfloat (f : PyFloat)
  | npfloat (f : PyFloat)
  | pystr (s : String)
  | pydict (entries : List (String × PyVal))
  | pylist (items : List PyVal)

/-- `PredictionEngine._clean_for_serialization`, transcribed branch by
branch: dicts and lists recurse; any object with a callable `.item()`
(numpy scalars) returns `obj.item()` — the raw Python float — at once,
BEFORE the NaN/Inf check further down; plain floats that are NaN or
infinite become `None`; everything else passes through. -/
def PredictionEngine.cleanForSerialization : PyVal → PyVal
  | .pydict entries => .pydict (cleanEntries entries)
  | .pylist items => .pylist (cleanItems items)
  | .npfloat f => .pyfloat f
  | .pyfloat f => if f.isNanOrInf then .pynone else .pyfloat f
  | v => v
where
  /-- Recurse over dict entries. -/
  cleanEntries : List (String × PyVal) → List (String × PyVal)
    | [] => []
    | (k, v) :: rest => (k, PredictionEngine.cleanForSerialization v) :: cleanEntries rest
  /-- Recurse over list items. -/
  cleanItems : List PyVal → List PyVal
    | [] => []
    | v :: rest => PredictionEngine.cleanForSerialization v :: cleanItems rest

/-- C9: a numpy float64 NaN inside a prediction dict is converted by the
early `obj.item()` return into a plain Python NaN and emitted as-is —
the NaN/Inf-to-null check below that branch never runs for it — while a
plain Python float NaN is correctly nulled.  The failing input
`{"atr": np.float64("nan")}` therefore serializes with a NaN, not the
null the claim requires. -/
theorem cleanForSerialization_numpy_nan_escapes :
    PredictionEngine.cleanForSerialization (.pydict [("atr", .npfloat .nan)]) =
      .pydict [("atr", .pyfloat .nan)] ∧
    PredictionEngine.cleanForSerialization (.pyfloat .nan) = .pynone ∧
    PredictionEngine.cleanForSerialization (.pyfloat .inf) = .pynone ∧
    .pyfloat PyFloat.nan ≠ PyVal.pynone :=
  ⟨rfl, rfl, rfl, by intro h; cases h⟩

/-- CPython `max(a, x)` where the second argument may be NaN: `max` keeps
its running maximum `a` because `nan > a` evaluates to False. -/
def pyMaxNan (a : ℚ) (x : Option ℚ) : ℚ :=
  match x with
  | none => a
  | some q => max a q

/-- `abs(x - y)` where `x` may be NaN (NaN propagates). -/
def nanAbsSub (x : Option ℚ) (y : ℚ) : Option ℚ :=
  match x with
  | none => none
  | some q => some |q - y|

/-- Last value of `series.ewm(alpha=1/window, adjust=False).mean()` over
a NaN-free series: y starts at the first element and then
`y = (1 - 1/window)·y + (1/window)·x` for each later element. -/
def ewmLast (window : ℕ) : List ℚ → ℚ
  | [] => 0
  | x :: rest =>
      rest.foldl (fun acc y => (1 - 1 / (window : ℚ)) * acc + (1 / (window : ℚ)) * y) x

/-- `close.diff(1)` without its leading NaN: consecutive differences. -/
def seriesDiffs : List ℚ → List ℚ
  | [] => []
  | [_] => []
  | a :: b :: rest => (b - a) :: seriesDiffs (b :: rest)

/-- Last value of `ta.momentum.rsi(close, window)` (the `ta` library
behind the local `pandas_ta` shim, `pandas_ta.py` lines 9-10), with NaN
modelled as `none`.  `diff = close.diff(1)` has a leading NaN, but
`diff.where(diff > 0, 0.0)` maps it to 0.0 because `NaN > 0` is False, so
the up/down-move series have one entry per close starting with 0;
`ewm(alpha=1/window, min_periods=window, adjust=False)` leaves the last
element NaN exactly when the series has fewer than `window` entries;
otherwise `rsi = 100` where the down-move mean is 0, else
`100 - 100/(1 + emaup/emadn)`. -/
def taRsiLast (closes : List ℚ) (window : ℕ) : Option ℚ :=
  if closes.length < window then none
  else
    let d := seriesDiffs closes
    let up := 0 :: d.map (fun x => if 0 < x then x else 0)
    let dn := 0 :: d.map (fun x => if x < 0 then -x else 0)
    let emaup := ewmLast window up
    let emadn := ewmLast window dn
    if emadn = 0 then some 100
    else some (100 - 100 / (1 + emaup / emadn))

/-- The fields of the dict returned by `RSIStrategy.calculate`
(`strategy` name omitted; `isError` records whether the `except` branch
produced the result, i.e. whether an `error` key is present). -/
structure RSIResult where
  signal : Signal
  confidence : ℚ
  value : Option ℚ
  isError : Bool
deriving DecidableEq, Repr

/-- `RSIStrategy.calculate` (`rsi_strategy.py` lines 37-87): on an empty
window `rsi.iloc[-1]` raises IndexError and the handler returns
NEUTRAL/0.  Otherwise the last RSI value is compared against the
thresholds; when it is NaN (window shorter than the RSI period) both
`current_rsi <= oversold` and `current_rsi >= overbought` are False, so
the NEUTRAL branch runs and computes `max(20, abs(NaN - 50))`, which
CPython evaluates to 20. -/
def RSIStrategy.calculate (closes : List ℚ) (period : ℕ)
    (overbought oversold : ℚ) : RSIResult :=
  if closes.isEmpty then
    ⟨.NEUTRAL, 0, some 0, true⟩
  else
    match taRsiLast closes period with
    | some r =>
      if r ≤ oversold then
        ⟨.BUY, min 100 (50 + (oversold - r) * 2), some r, false⟩
      else if overbought ≤ r then
        ⟨.SELL, min 100 (50 + (r - overbought) * 2), some r, false⟩
      else
        ⟨.NEUTRAL, max 20 |r - 50|, some r, false⟩
    | none =>
      ⟨.NEUTRAL, pyMaxNan 20 (nanAbsSub none 50), none, false⟩

/-- C7: on the failing input — a five-element close series with the
default 14-period RSI and 70/30 thresholds — the RSI is NaN, both
threshold comparisons are False, and the strategy returns NEUTRAL with
confidence 20 and a NaN value, not the claimed NEUTRAL with confidence 0;
the NEUTRAL/0 fallback fires only when an exception is actually raised,
as on the empty window where `iloc[-1]` raises IndexError. -/
theorem rsiCalculate_short_window_confidence_twenty :
    RSIStrategy.calculate [10, 11, 12, 13, 14] 14 70 30 =
      ⟨.NEUTRAL, 20, none, false⟩ ∧
    RSIStrategy.calculate [] 14 70 30 = ⟨.NEUTRAL, 0, some 0, true⟩ ∧
    (20 : ℚ) ≠ 0 :=
  ⟨rfl, rfl, by norm_num⟩
